import Mathlib

/-!
Verification of the raster-import core of this repository
(`raster_import.cpp`, `raster_io.h`, `tree_base.h`).

The C++ code is shallowly embedded: `uint` values become `Nat` (with the
int-to-uint conversion made explicit as reduction modulo 2^32 where the code
performs one), `int` values become `Int` with C truncated division/modulus
(`Int.tdiv` / `Int.tmod`), and the per-tile mutation primitives become pure
state transformers on a `Tile` record.  Random draws (`RandomRange`,
`Random()`) are passed in as explicit parameters.
-/

/-- Conversion of a C `int` value to `uint` (reduction modulo 2^32),
as performed implicitly by assignments such as `uint field = ... % 9;`. -/
def toUint (i : Int) : Nat := (i % 4294967296).toNat

/-- Lower cutoff threshold for unique values in raster files (0x0f). -/
def LOWER_CUTOFF : Int := 15

/-- Upper cutoff threshold for unique values in raster files (0xf0). -/
def UPPER_CUTOFF : Int := 240

/--
`SampleQuantizedGradient(sample, max_level, start, end)` from
`raster_import.cpp`.  `rand` models the value returned by
`RandomRange(std::abs(x_delta - 2))`; the code then adds 1 to it.
All integer arithmetic is C truncated division/modulus on `int`.
-/
def sampleQuantizedGradient (sample max_level start e : Int) (rand : Nat) : Int :=
  let x_delta : Int := Int.tdiv (e - start) max_level
  let start2 : Int := if start > e then e else start
  let x : Int := max (sample - start2) 0
  let rand2 : Int := (rand : Int) + 1
  let y_jitter : Int := if Int.tmod x x_delta > rand2 then 1 else 0
  let y_delta : Int := Int.tdiv x (Int.natAbs x_delta : Int)
  let y : Int := min (max (y_delta + y_jitter) 0) max_level
  if x_delta < 0 then max_level - y else y

/-- Maximum number of pixels for one dimension of a raster image
(`raster_io.h`): `2 * (1 << 16)`. -/
def MAX_RASTER_SIDE_LENGTH_IN_PIXELS : Nat := 2 * (1 <<< 16)

/-- Maximum size in pixels of the raster image (`raster_io.h`): `256 << 20`. -/
def MAX_RASTER_SIZE_PIXELS : Nat := 256 <<< 20

/-- `IsValidRasterDimension(width, height)` from `raster_io.h`.  The C++
code multiplies two `size_t` values after casting the first to `uint64`;
the product is therefore reduced modulo 2^64. -/
def isValidRasterDimension (width height : Nat) : Bool :=
  decide ((width * height) % 18446744073709551616 ≤ MAX_RASTER_SIZE_PIXELS) &&
    decide (0 < width) && decide (width ≤ MAX_RASTER_SIDE_LENGTH_IN_PIXELS) &&
    decide (0 < height) && decide (height ≤ MAX_RASTER_SIDE_LENGTH_IN_PIXELS)

/-- The heightmap rotation setting read by `ApplyRasterToMap`. -/
inductive HeightmapRotation where
  | counterClockwise
  | clockwise
deriving DecidableEq

/-- The fixed-point subdivision base `num_div` of `ApplyRasterToMap`. -/
def numDiv : Nat := 16384

/-- Scale and padding values computed once per pass by `ApplyRasterToMap`
(lines 63-83): map extents after the rotation-dependent swap, the
fixed-point `raster_scale`, and the row/column padding. -/
structure ProjParams where
  mapWidth : Nat
  mapHeight : Nat
  rasterScale : Nat
  rowPad : Nat
  colPad : Nat
deriving DecidableEq, Repr

/-- The scale/padding setup of `ApplyRasterToMap`: `msX`/`msY` are
`MapSizeX()`/`MapSizeY()`, `rw`/`rh` the raster dimensions.  All values are
C `uint`s; no intermediate exceeds 2^32 for in-range inputs (the code's
`static_assert` covers `rw * num_div`). -/
def projSetup (rot : HeightmapRotation) (msX msY rw rh : Nat) : ProjParams :=
  let mw : Nat := match rot with
    | HeightmapRotation.counterClockwise => msX
    | HeightmapRotation.clockwise => msY
  let mh : Nat := match rot with
    | HeightmapRotation.counterClockwise => msY
    | HeightmapRotation.clockwise => msX
  if (rw * numDiv) / rh > (mw * numDiv) / mh then
    let scale := (mw * numDiv) / rw
    { mapWidth := mw, mapHeight := mh, rasterScale := scale,
      rowPad := (1 + mh - (rh * scale) / numDiv) / 2, colPad := 0 }
  else
    let scale := (mh * numDiv) / rh
    { mapWidth := mw, mapHeight := mh, rasterScale := scale,
      rowPad := 0, colPad := (1 + mw - (rw * scale) / numDiv) / 2 }

/-- Source row computed for a visited map row (line 95):
`raster_row = ((map_row - map_row_pad) * num_div) / raster_scale`. -/
def srcRow (p : ProjParams) (mapRow : Nat) : Nat :=
  ((mapRow - p.rowPad) * numDiv) / p.rasterScale

/-- Source column computed for a visited map column (lines 96-104): the
counter-clockwise orientation mirrors the column axis using the map width,
the clockwise orientation maps it directly. -/
def srcCol (rot : HeightmapRotation) (p : ProjParams) (mapCol : Nat) : Nat :=
  match rot with
  | HeightmapRotation.counterClockwise =>
      ((p.mapWidth - 1 - mapCol - p.colPad) * numDiv) / p.rasterScale
  | HeightmapRotation.clockwise =>
      ((mapCol - p.colPad) * numDiv) / p.rasterScale

/-- The cells visited by the projection loops (lines 86-87), together with
the source pixel index computed for each:
entries are `(map_row, map_col, raster_row, raster_col)`. -/
def visitedCells (rot : HeightmapRotation) (msX msY rw rh : Nat) :
    List (Nat × Nat × Nat × Nat) :=
  let p := projSetup rot msX msY rw rh
  ((List.range (p.mapHeight - p.rowPad - p.rowPad)).map (· + p.rowPad)).flatMap
    fun mapRow =>
      ((List.range (p.mapWidth - p.colPad - p.colPad)).map (· + p.colPad)).map
        fun mapCol => (mapRow, mapCol, srcRow p mapRow, srcCol rot p mapCol)

/-- The two assertions of `ApplyRasterToMap` (lines 106-107), stated over
every visited cell: `raster_row < raster_height ∧ raster_col < raster_width`. -/
def assertsHold (rot : HeightmapRotation) (msX msY rw rh : Nat) : Prop :=
  ∀ c ∈ visitedCells rot msX msY rw rh, c.2.2.1 < rh ∧ c.2.2.2 < rw

instance (rot : HeightmapRotation) (msX msY rw rh : Nat) :
    Decidable (assertsHold rot msX msY rw rh) :=
  List.decidableBAll _ _

/-- The back-mapping formula the spec states for the source row:
`(destRow - rowPadding) * base / scale`. -/
def specSrcRow (rowPad scale destRow : Nat) : Nat :=
  ((destRow - rowPad) * numDiv) / scale

/-- The mirrored column back-mapping formula; the spec words it with the
image width in the mirror term, the code uses the (grid) map width, so the
width to mirror with is a parameter here. -/
def specSrcColMirror (mirrorWidth colPad scale destCol : Nat) : Nat :=
  ((mirrorWidth - 1 - destCol - colPad) * numDiv) / scale

/-- The direct (clockwise) column back-mapping formula of the spec:
`(destCol - colPadding) * base / scale`. -/
def specSrcColDirect (colPad scale destCol : Nat) : Nat :=
  ((destCol - colPad) * numDiv) / scale

/-- The landscape (climate) setting `_settings_game.game_creation.landscape`. -/
inductive Landscape where
  | temperate
  | arctic
  | tropic
  | toyland
deriving DecidableEq

/-- `TREE_TEMPERATE` from `tree_base.h` (0x00). -/
def TREE_TEMPERATE : Nat := 0

/-- `TREE_SUB_ARCTIC` from `tree_base.h` (0x0C). -/
def TREE_SUB_ARCTIC : Nat := 12

/-- `TREE_RAINFOREST` from `tree_base.h` (0x14). -/
def TREE_RAINFOREST : Nat := 20

/-- `TREE_CACTUS` from `tree_base.h` (0x1B). -/
def TREE_CACTUS : Nat := 27

/-- `TREE_SUB_TROPICAL` from `tree_base.h` (0x1C). -/
def TREE_SUB_TROPICAL : Nat := 28

/-- `TREE_TOYLAND` from `tree_base.h` (0x20). -/
def TREE_TOYLAND : Nat := 32

/-- `TREE_INVALID` from `tree_base.h` (0xFF). -/
def TREE_INVALID : Nat := 255

/-- `TREE_COUNT_TEMPERATE = TREE_SUB_ARCTIC - TREE_TEMPERATE`. -/
def TREE_COUNT_TEMPERATE : Nat := TREE_SUB_ARCTIC - TREE_TEMPERATE

/-- `TREE_COUNT_SUB_ARCTIC = TREE_RAINFOREST - TREE_SUB_ARCTIC`. -/
def TREE_COUNT_SUB_ARCTIC : Nat := TREE_RAINFOREST - TREE_SUB_ARCTIC

/-- `TREE_COUNT_RAINFOREST = TREE_CACTUS - TREE_RAINFOREST`. -/
def TREE_COUNT_RAINFOREST : Nat := TREE_CACTUS - TREE_RAINFOREST

/-- `TREE_COUNT_SUB_TROPICAL = TREE_TOYLAND - TREE_SUB_TROPICAL`. -/
def TREE_COUNT_SUB_TROPICAL : Nat := TREE_TOYLAND - TREE_SUB_TROPICAL

/-- `TREE_COUNT_TOYLAND = 9`. -/
def TREE_COUNT_TOYLAND : Nat := 9

/-- `TreeTypeLookup(val)` from `raster_import.cpp`, with the climate
setting passed explicitly.  For `val >= 0x10` the byte promotes to a
non-negative `int`, so plain `Nat` arithmetic is exact. -/
def treeTypeLookup (val : Nat) (climate : Landscape) : Nat :=
  if val < 16 then TREE_INVALID
  else match climate with
    | Landscape.temperate => TREE_TEMPERATE + ((val >>> 4) - 1) % TREE_COUNT_TEMPERATE
    | Landscape.arctic => TREE_SUB_ARCTIC + ((val >>> 4) - 1) % TREE_COUNT_SUB_ARCTIC
    | Landscape.tropic => TREE_RAINFOREST + ((val >>> 4) - 1) % TREE_COUNT_SUB_TROPICAL
    | Landscape.toyland => TREE_TOYLAND + ((val >>> 4) - 1) % TREE_COUNT_TOYLAND

/-- A species group of the tree list: its base offset and its species
count, as laid out in `tree_base.h`. -/
structure SpeciesGroup where
  base : Nat
  count : Nat
deriving DecidableEq

/-- The temperate species group: base `TREE_TEMPERATE`, count 12. -/
def temperateGroup : SpeciesGroup := ⟨TREE_TEMPERATE, TREE_COUNT_TEMPERATE⟩

/-- The sub-arctic species group: base `TREE_SUB_ARCTIC`, count 8. -/
def subArcticGroup : SpeciesGroup := ⟨TREE_SUB_ARCTIC, TREE_COUNT_SUB_ARCTIC⟩

/-- The rainforest species group: base `TREE_RAINFOREST`, count 7. -/
def rainforestGroup : SpeciesGroup := ⟨TREE_RAINFOREST, TREE_COUNT_RAINFOREST⟩

/-- The sub-tropical species group: base `TREE_SUB_TROPICAL`, count 4. -/
def subTropicalGroup : SpeciesGroup := ⟨TREE_SUB_TROPICAL, TREE_COUNT_SUB_TROPICAL⟩

/-- The toyland species group: base `TREE_TOYLAND`, count 9. -/
def toylandGroup : SpeciesGroup := ⟨TREE_TOYLAND, TREE_COUNT_TOYLAND⟩

/-- Modelled from the spec: the species decoding the claim states, with
base and modulus taken from one and the same species group:
`base + (((b >> 4) - 1) mod count)`. -/
def specSameGroupDecode (g : SpeciesGroup) (b : Nat) : Nat :=
  g.base + ((b >>> 4) - 1) % g.count

/-- `ApplyFields` from `raster_import.cpp`, as the field value handed to
`MakeField` (`none` when no field is made).  `randG` is the jitter draw of
the green-channel gradient sample.  The field computation
`uint field = ((r >> 4) - 1) % 9;` happens on `int` and is then converted
to `uint`, which is what `toUint` makes explicit. -/
def applyFields (r g : Nat) (randG : Nat) : Option Nat :=
  if r < 15 then none
  else if sampleQuantizedGradient g 1 LOWER_CUTOFF UPPER_CUTOFF randG ≠ 0 then
    some (toUint (Int.tmod (((r >>> 4 : Nat) : Int) - 1) 9))
  else none

/-- The grid mutation performed by `ApplyWater` on one tile.  A canal
records whether the tile's owner was `OWNER_WATER` (in which case the code
passes `OWNER_NONE` to `MakeCanal` instead of the owner). -/
inductive WaterAction where
  | canal (ownerWasWater : Bool)
  | river
  | sea
  | nothing
deriving DecidableEq

/-- Whether a `WaterAction` is a canal. -/
def WaterAction.isCanal : WaterAction → Bool
  | WaterAction.canal _ => true
  | _ => false

/-- `ApplyWater` from `raster_import.cpp`.  `flat` is
`GetTileSlope(tile) == SLOPE_FLAT` (and `IsTileFlat(tile)`), `halftile` is
`IsHalftileSlope(slope)`, `heightZero` is `TileHeight(tile) == 0`,
`ownerWater` is `GetTileOwner(tile) == OWNER_WATER`. -/
def applyWater (r g b : Nat) (flat halftile heightZero ownerWater : Bool) :
    WaterAction :=
  if 240 ≤ r then
    if flat then WaterAction.canal ownerWater
    else if 240 ≤ g && halftile then WaterAction.river
    else WaterAction.nothing
  else if 240 ≤ g then
    if flat || halftile then WaterAction.river else WaterAction.nothing
  else if 240 ≤ b then
    if flat && heightZero then WaterAction.sea else WaterAction.nothing
  else WaterAction.nothing

/-- Tile types relevant to the raster import (`MP_CLEAR`, `MP_TREES`, and
the remaining kinds the classifiers must leave alone). -/
inductive TileType where
  | clear
  | trees
  | water
  | house
  | road
  | industry
  | other
deriving DecidableEq

/-- `ClearGround` ground kinds of clear tiles. -/
inductive ClearGround where
  | grass
  | rough
  | rocks
  | fields
  | snow
  | desert
deriving DecidableEq

/-- `TreeGround` ground kinds of tree tiles (`tree_base.h`). -/
inductive TreeGround where
  | grass
  | rough
  | snowDesert
  | shore
  | roughSnow
deriving DecidableEq

/-- Tropic zone of a tile. -/
inductive TropicZone where
  | normal
  | desert
  | rainforest
deriving DecidableEq

/-- The per-tile state touched by the classifiers: the tile type, the
clear-ground kind and density, the tree-ground kind, and the tropic zone. -/
structure Tile where
  ttype : TileType
  ground : ClearGround
  density : Nat
  treeGround : TreeGround
  tropicZone : TropicZone
deriving DecidableEq

/-- `SetClearGroundDensity(tile, ground, density)`. -/
def setClearGroundDensity (t : Tile) (g : ClearGround) (d : Nat) : Tile :=
  { t with ground := g, density := d }

/-- `SetTreeGroundDensity(tile, ground, density)`. -/
def setTreeGroundDensity (t : Tile) (tg : TreeGround) (d : Nat) : Tile :=
  { t with treeGround := tg, density := d }

/-- `MakeClear(tile, ground, density)`: the tile becomes `MP_CLEAR`. -/
def makeClear (t : Tile) (g : ClearGround) (d : Nat) : Tile :=
  { t with ttype := TileType.clear, ground := g, density := d }

/-- `MakeSnow(tile, density)`: the clear tile's ground becomes snow. -/
def makeSnow (t : Tile) (d : Nat) : Tile :=
  { t with ground := ClearGround.snow, density := d }

/-- `ReplaceGround(tile, ground, density)` from `raster_import.cpp`:
rewrites the ground of clear tiles, translates it for tree tiles (turning
tree tiles into clear tiles for rocks/fields), and leaves every other tile
type untouched.  The `NOT_REACHED` default of the tree switch cannot fire
because `ClearGround` is exhaustively matched. -/
def replaceGround (t : Tile) (g : ClearGround) (d : Nat) : Tile :=
  if t.ttype = TileType.clear then setClearGroundDensity t g d
  else if t.ttype = TileType.trees then
    match g with
    | ClearGround.grass => setTreeGroundDensity t TreeGround.grass d
    | ClearGround.rough => setTreeGroundDensity t TreeGround.rough d
    | ClearGround.rocks => makeClear t g d
    | ClearGround.fields => makeClear t g d
    | ClearGround.snow => setTreeGroundDensity t TreeGround.snowDesert d
    | ClearGround.desert => setTreeGroundDensity t TreeGround.snowDesert d
  else t

/-- `ApplyTerrain` from `raster_import.cpp`.  `randR`, `randG`, `randB`
are the three independent jitter draws.  The sampled density is assigned
to a `uint` before the `< 3` comparison. -/
def applyTerrain (r g b : Nat) (randR randG randB : Nat) (t : Tile) : Tile :=
  if t.ttype ≠ TileType.clear ∧ t.ttype ≠ TileType.trees then t
  else
    let t1 :=
      if 16 ≤ r then
        let density := toUint (sampleQuantizedGradient r 3 UPPER_CUTOFF LOWER_CUTOFF randR)
        if density < 3 then replaceGround t ClearGround.grass density else t
      else t
    let t2 :=
      if 16 ≤ g then
        if sampleQuantizedGradient g 1 LOWER_CUTOFF UPPER_CUTOFF randG ≠ 0 then
          replaceGround t1 ClearGround.rough 3
        else t1
      else t1
    if 16 ≤ b then
      if sampleQuantizedGradient b 1 LOWER_CUTOFF UPPER_CUTOFF randB ≠ 0 then
        replaceGround t2 ClearGround.rocks 3
      else t2
    else t2

/-- `ApplyDesert` from `raster_import.cpp`: a two-level gradient scaled to
density 1 or 3, written through `ReplaceGround`, plus the desert tropic
zone for green above the upper cutoff. -/
def applyDesert (r g : Nat) (randR : Nat) (t : Tile) : Tile :=
  let density : Int := sampleQuantizedGradient r 2 LOWER_CUTOFF UPPER_CUTOFF randR * 2 - 1
  if density < 0 then t
  else
    let t1 := replaceGround t ClearGround.desert (toUint density)
    if 240 < g then { t1 with tropicZone := TropicZone.desert } else t1

/-- `ApplySnow` from `raster_import.cpp`. -/
def applySnow (b : Nat) (randB : Nat) (t : Tile) : Tile :=
  let density : Int := sampleQuantizedGradient b 4 LOWER_CUTOFF UPPER_CUTOFF randB - 1
  if density < 0 then t
  else if t.ttype = TileType.clear then
    if t.ground = ClearGround.snow then
      setClearGroundDensity t ClearGround.snow (toUint density)
    else makeSnow t (toUint density)
  else if t.ttype = TileType.trees then
    match t.treeGround with
    | TreeGround.grass => setTreeGroundDensity t TreeGround.snowDesert (toUint density)
    | TreeGround.snowDesert => setTreeGroundDensity t TreeGround.snowDesert (toUint density)
    | TreeGround.rough => setTreeGroundDensity t TreeGround.roughSnow (toUint density)
    | TreeGround.roughSnow => setTreeGroundDensity t TreeGround.roughSnow (toUint density)
    | TreeGround.shore => t
  else t

/-- `ApplyTrees` from `raster_import.cpp`, as the `(tree, density, growth)`
triple handed to `PlantTreesOnTile` (`none` when nothing is planted).
`randomTree` stands for the `GetRandomTreeType` result, `canPlant` for
`CanPlantTreesOnTile(tile, true)`. -/
def applyTrees (r g b : Nat) (randR randG : Nat) (climate : Landscape)
    (randomTree : Nat) (canPlant : Bool) : Option (Nat × Nat × Nat) :=
  let growth : Nat :=
    if r < 16 then 3
    else toUint (sampleQuantizedGradient r 6 LOWER_CUTOFF UPPER_CUTOFF randR)
  let density : Int := sampleQuantizedGradient g (3 + 1) LOWER_CUTOFF UPPER_CUTOFF randG - 1
  if density < 0 then none
  else
    let tree : Nat := if b < 16 then randomTree else treeTypeLookup b climate
    if tree = TREE_INVALID then none
    else if canPlant then some (tree, toUint density, growth)
    else none

/-- The `(max_level, start, end)` arguments of the
`SampleQuantizedGradient` calls in `ApplyTerrain` (lines 211, 217, 224). -/
def terrainSampleArgs : List (Int × Int × Int) :=
  [(3, UPPER_CUTOFF, LOWER_CUTOFF), (1, LOWER_CUTOFF, UPPER_CUTOFF),
    (1, LOWER_CUTOFF, UPPER_CUTOFF)]

/-- The `(max_level, start, end)` arguments of the call in `ApplyFields`
(line 249). -/
def fieldsSampleArgs : List (Int × Int × Int) :=
  [(1, LOWER_CUTOFF, UPPER_CUTOFF)]

/-- The `(max_level, start, end)` arguments of the calls in `ApplyTrees`
(lines 336, 342). -/
def treesSampleArgs : List (Int × Int × Int) :=
  [(6, LOWER_CUTOFF, UPPER_CUTOFF), (3 + 1, LOWER_CUTOFF, UPPER_CUTOFF)]

/-- The `(max_level, start, end)` arguments of the call in `ApplySnow`
(line 373). -/
def snowSampleArgs : List (Int × Int × Int) :=
  [(3 + 1, LOWER_CUTOFF, UPPER_CUTOFF)]

/-- The `(max_level, start, end)` arguments of the call in `ApplyDesert`
(line 409). -/
def desertSampleArgs : List (Int × Int × Int) :=
  [(1 + 1, LOWER_CUTOFF, UPPER_CUTOFF)]

/-- All `SampleQuantizedGradient` call sites inside the classifiers. -/
def classifierSampleArgs : List (Int × Int × Int) :=
  terrainSampleArgs ++ fieldsSampleArgs ++ treesSampleArgs ++
    snowSampleArgs ++ desertSampleArgs

/-- The fixed argument set named by claim C9. -/
def claimedSampleArgSet : List (Int × Int × Int) :=
  [(3, 240, 15), (1, 15, 240), (6, 15, 240), (4, 15, 240), (2, 15, 240)]

/-- The raster data types dispatched by `LoadRaster` (`raster_io.h`). -/
inductive RasterDataType where
  | terrain
  | fields
  | water
  | trees
  | snow
  | desert
  | tropics
deriving DecidableEq

/-- The observable outcome of one `LoadRaster` call over a world grid of
type `G`: the resulting grid, whether `MarkWholeScreenDirty` was called,
and whether the pixel buffer was released with `free`. -/
structure LoadOutcome (G : Type) where
  grid : G
  screenDirty : Bool
  bufferFreed : Bool

/-- `LoadRaster` from `raster_import.cpp`.  `readResult` is the outcome of
`ReadRasterFile` (`none` for a failed read, otherwise the dimensions and
pixel bytes); `pass` is the `ApplyRasterToMap` projection pass with the
classifier selected by the data type.  On a failed read the code frees the
(possibly partially allocated) buffer and returns at once. -/
def loadRaster (G : Type) (pass : RasterDataType → Nat → Nat → List Nat → G → G)
    (rdt : RasterDataType) (readResult : Option (Nat × Nat × List Nat))
    (grid : G) : LoadOutcome G :=
  match readResult with
  | Option.none => { grid := grid, screenDirty := false, bufferFreed := true }
  | Option.some (x, y, raster) =>
      { grid := pass rdt x y raster grid, screenDirty := true, bufferFreed := true }

/-- Claim C1: for all inputs satisfying the sampler's preconditions
(`max_level > 0`, `start ≠ end`, `|(end-start)/max_level| ≥ 3`) and every
value of the random jitter draw, `SampleQuantizedGradient` returns a level
in the inclusive range `[0, max_level]`. -/
theorem sampleQuantizedGradient_in_range
    (sample max_level start e : Int) (rand : Nat)
    (hlev : 0 < max_level) (hne : start ≠ e)
    (hstep : 3 ≤ (Int.tdiv (e - start) max_level).natAbs) :
    0 ≤ sampleQuantizedGradient sample max_level start e rand ∧
      sampleQuantizedGradient sample max_level start e rand ≤ max_level := by
  unfold sampleQuantizedGradient
  set x_delta : Int := Int.tdiv (e - start) max_level with hxd
  set start2 : Int := if start > e then e else start with hs2
  set x : Int := max (sample - start2) 0 with hx
  set rand2 : Int := (rand : Int) + 1 with hr2
  set y_jitter : Int := if Int.tmod x x_delta > rand2 then 1 else 0 with hj
  set y_delta : Int := Int.tdiv x (Int.natAbs x_delta : Int) with hyd
  set y : Int := min (max (y_delta + y_jitter) 0) max_level with hy
  have hy0 : 0 ≤ y := by
    rw [hy]
    exact le_min (le_max_right _ 0) (le_of_lt hlev)
  have hy1 : y ≤ max_level := min_le_right _ _
  by_cases hneg : x_delta < 0 <;> simp only [hneg, if_true, if_false] <;> omega

/-- Witness for C1 at the descending-gradient extreme used by the terrain
classifier: `sample(240, 3, 240, 15)` with jitter draw 0. -/
theorem sampleQuantizedGradient_in_range_witness :
    (0 : Int) < 3 ∧ (240 : Int) ≠ 15 ∧
      3 ≤ (Int.tdiv ((15 : Int) - 240) 3).natAbs ∧
      (0 ≤ sampleQuantizedGradient 240 3 240 15 0 ∧
        sampleQuantizedGradient 240 3 240 15 0 ≤ 3) :=
  ⟨by decide, by decide, by decide,
    sampleQuantizedGradient_in_range 240 3 240 15 0 (by decide) (by decide) (by decide)⟩

/-- Claim C2 is false on the code: a 40000 x 1024 raster passes
`IsValidRasterDimension`, yet on a map with `MapSizeX = 64`,
`MapSizeY = 128` under clockwise rotation the projection loop visits the
cell `(map_row, map_col) = (31, 127)` and computes `raster_col = 40014`,
which is not `< raster_width = 40000`: the assertion
`assert(raster_col < raster_width)` fires.  The floored `raster_scale`
(`2097152 / 40000 = 52`) loses too much precision for rasters wider than
`num_div` pixels. -/
theorem projector_assert_violated_at_failing_input :
    isValidRasterDimension 40000 1024 = true ∧
      (31, 127, 0, 40014) ∈
        visitedCells HeightmapRotation.clockwise 64 128 40000 1024 ∧
      ¬ assertsHold HeightmapRotation.clockwise 64 128 40000 1024 := by
  refine ⟨by decide, by decide, ?_⟩
  intro h
  have h2 := (h (31, 127, 0, 40014) (by decide)).2
  exact absurd h2 (by decide)

/-- Claim C3's mirrored-column formula is false as worded: for a 32 x 32
raster on a 64 x 64 map (counter-clockwise), the code computes
`raster_col = ((map_width - 1 - map_col - col_pad) * num_div) / scale = 31`
at `map_col = 0`, while the spec's formula with the image width in the
mirror term gives `((32 - 1 - 0 - 0) * 16384) / 32768 = 15`. -/
theorem srcCol_mirror_uses_map_width_counterexample :
    srcCol HeightmapRotation.counterClockwise
        (projSetup HeightmapRotation.counterClockwise 64 64 32 32) 0 = 31 ∧
      specSrcColMirror 32
        (projSetup HeightmapRotation.counterClockwise 64 64 32 32).colPad
        (projSetup HeightmapRotation.counterClockwise 64 64 32 32).rasterScale 0 = 15 ∧
      (31 : Nat) ≠ 15 := by
  decide

/-- Claim C3, amended: the projector back-maps every visited cell by
nearest neighbour with `srcRow = (destRow - rowPad) * base / scale`; the
counter-clockwise orientation mirrors the column axis using the map (grid)
width, `srcCol = (mapWidth - 1 - destCol - colPad) * base / scale`, and the
clockwise orientation maps it directly,
`srcCol = (destCol - colPad) * base / scale`. -/
theorem projector_backmapping_formulas
    (rot : HeightmapRotation) (msX msY rw rh : Nat)
    (c : Nat × Nat × Nat × Nat)
    (hc : c ∈ visitedCells rot msX msY rw rh) :
    c.2.2.1 = specSrcRow (projSetup rot msX msY rw rh).rowPad
        (projSetup rot msX msY rw rh).rasterScale c.1 ∧
      c.2.2.2 = (match rot with
        | HeightmapRotation.counterClockwise =>
            specSrcColMirror (projSetup rot msX msY rw rh).mapWidth
              (projSetup rot msX msY rw rh).colPad
              (projSetup rot msX msY rw rh).rasterScale c.2.1
        | HeightmapRotation.clockwise =>
            specSrcColDirect (projSetup rot msX msY rw rh).colPad
              (projSetup rot msX msY rw rh).rasterScale c.2.1) := by
  simp only [visitedCells, List.mem_flatMap, List.mem_map, List.mem_range] at hc
  obtain ⟨row, ⟨i, _, hrow⟩, j, ⟨k, _, hcol⟩, hcell⟩ := hc
  subst hcell
  cases rot <;>
    simp [srcRow, srcCol, specSrcRow, specSrcColMirror, specSrcColDirect]

/-- Witness for the amended C3 at a concrete visited cell of the 32 x 32
raster, 64 x 64 map, counter-clockwise configuration. -/
theorem projector_backmapping_formulas_witness :
    (0, 0, 0, 31) ∈ visitedCells HeightmapRotation.counterClockwise 64 64 32 32 ∧
      ((0, 0, 0, 31) : Nat × Nat × Nat × Nat).2.2.1 =
        specSrcRow (projSetup HeightmapRotation.counterClockwise 64 64 32 32).rowPad
          (projSetup HeightmapRotation.counterClockwise 64 64 32 32).rasterScale 0 ∧
      ((0, 0, 0, 31) : Nat × Nat × Nat × Nat).2.2.2 =
        specSrcColMirror (projSetup HeightmapRotation.counterClockwise 64 64 32 32).mapWidth
          (projSetup HeightmapRotation.counterClockwise 64 64 32 32).colPad
          (projSetup HeightmapRotation.counterClockwise 64 64 32 32).rasterScale 0 :=
  ⟨by decide,
    (projector_backmapping_formulas HeightmapRotation.counterClockwise 64 64 32 32
      (0, 0, 0, 31) (by decide)).1,
    (projector_backmapping_formulas HeightmapRotation.counterClockwise 64 64 32 32
      (0, 0, 0, 31) (by decide)).2⟩

/-- Claim C4: `IsValidRasterDimension(width, height)` is true exactly when
`width * height ≤ 268435456`, `0 < width ≤ 131072` and
`0 < height ≤ 131072` (for arguments in the `size_t` range). -/
theorem isValidRasterDimension_iff (w h : Nat)
    (hw : w < 18446744073709551616) (hh : h < 18446744073709551616) :
    isValidRasterDimension w h = true ↔
      (w * h ≤ 268435456 ∧ 0 < w ∧ w ≤ 131072 ∧ 0 < h ∧ h ≤ 131072) := by
  have hside : MAX_RASTER_SIDE_LENGTH_IN_PIXELS = 131072 := by decide
  have hpix : MAX_RASTER_SIZE_PIXELS = 268435456 := by decide
  simp only [isValidRasterDimension, hside, hpix, Bool.and_eq_true,
    decide_eq_true_eq]
  constructor
  · rintro ⟨⟨⟨⟨hmod, hw0⟩, hw1⟩, hh0⟩, hh1⟩
    have hlt : w * h < 18446744073709551616 :=
      lt_of_le_of_lt (Nat.mul_le_mul hw1 hh1) (by norm_num)
    rw [Nat.mod_eq_of_lt hlt] at hmod
    exact ⟨hmod, hw0, hw1, hh0, hh1⟩
  · rintro ⟨hmul, hw0, hw1, hh0, hh1⟩
    have hlt : w * h < 18446744073709551616 :=
      lt_of_le_of_lt (Nat.mul_le_mul hw1 hh1) (by norm_num)
    rw [Nat.mod_eq_of_lt hlt]
    exact ⟨⟨⟨⟨hmul, hw0⟩, hw1⟩, hh0⟩, hh1⟩

/-- Witness for C4 at `width = 40000`, `height = 1024`. -/
theorem isValidRasterDimension_iff_witness :
    (40000 : Nat) < 18446744073709551616 ∧ (1024 : Nat) < 18446744073709551616 ∧
      (isValidRasterDimension 40000 1024 = true ↔
        (40000 * 1024 ≤ 268435456 ∧ 0 < 40000 ∧ 40000 ≤ 131072 ∧
          0 < 1024 ∧ 1024 ≤ 131072)) :=
  ⟨by decide, by decide,
    isValidRasterDimension_iff 40000 1024 (by decide) (by decide)⟩

/-- Claim C5 is false for the tropic climate: at `b = 0x60` the code
returns `TREE_RAINFOREST + 5 % TREE_COUNT_SUB_TROPICAL = 21`, which is the
self-consistent decode of no species group at all — in particular not of
the rainforest group (whose base the code uses but whose count is 7,
giving 25), and not of the sub-tropical group (whose count the code uses
but whose base is 28, giving 29). -/
theorem treeTypeLookup_tropic_counterexample :
    treeTypeLookup 96 Landscape.tropic = 21 ∧
      treeTypeLookup 96 Landscape.tropic ≠ specSameGroupDecode temperateGroup 96 ∧
      treeTypeLookup 96 Landscape.tropic ≠ specSameGroupDecode subArcticGroup 96 ∧
      treeTypeLookup 96 Landscape.tropic ≠ specSameGroupDecode rainforestGroup 96 ∧
      treeTypeLookup 96 Landscape.tropic ≠ specSameGroupDecode subTropicalGroup 96 ∧
      treeTypeLookup 96 Landscape.tropic ≠ specSameGroupDecode toylandGroup 96 := by
  decide

/-- Claim C5, amended: for every `b ≥ 16`, the temperate, arctic and
toyland climates decode the species as `base + (((b >> 4) - 1) mod count)`
with base and count from that climate's own species group; the tropic
climate however offsets by the rainforest group's base while reducing
modulo the sub-tropical group's count (4), not the rainforest group's
count (7). -/
theorem treeTypeLookup_climate_decode (b : Nat) (hb : 16 ≤ b) :
    treeTypeLookup b Landscape.temperate = specSameGroupDecode temperateGroup b ∧
      treeTypeLookup b Landscape.arctic = specSameGroupDecode subArcticGroup b ∧
      treeTypeLookup b Landscape.toyland = specSameGroupDecode toylandGroup b ∧
      treeTypeLookup b Landscape.tropic =
        TREE_RAINFOREST + ((b >>> 4) - 1) % TREE_COUNT_SUB_TROPICAL := by
  have h : ¬ b < 16 := by omega
  refine ⟨?_, ?_, ?_, ?_⟩ <;>
    simp [treeTypeLookup, specSameGroupDecode, h, temperateGroup, subArcticGroup,
      toylandGroup]

/-- Witness for the amended C5 at `b = 96`. -/
theorem treeTypeLookup_climate_decode_witness :
    (16 : Nat) ≤ 96 ∧
      (treeTypeLookup 96 Landscape.temperate = specSameGroupDecode temperateGroup 96 ∧
        treeTypeLookup 96 Landscape.arctic = specSameGroupDecode subArcticGroup 96 ∧
        treeTypeLookup 96 Landscape.toyland = specSameGroupDecode toylandGroup 96 ∧
        treeTypeLookup 96 Landscape.tropic =
          TREE_RAINFOREST + ((96 >>> 4) - 1) % TREE_COUNT_SUB_TROPICAL) :=
  ⟨by decide, treeTypeLookup_climate_decode 96 (by decide)⟩

/-- Claim C6 is false at `r = 15` exactly: the guard `r < LOWER_CUTOFF`
lets 15 through, `(15 >> 4) - 1` is `-1` as an `int`, and the conversion
to `uint` wraps it to 4294967295, far outside `[0, 8]`. -/
theorem applyFields_r15_wraparound :
    applyFields 15 240 0 = Option.some 4294967295 ∧ ¬ (4294967295 : Nat) ≤ 8 := by
  decide

/-- Claim C6, amended: for every `r < 15` no field is made; for every
`r ≥ 16` the field value written (when the green draw succeeds) equals
`((r >> 4) - 1) mod 9`, a value in `[0, 8]`; at the boundary `r = 15` the
int-to-uint conversion instead wraps the value to 4294967295. -/
theorem applyFields_field_value (r g randG : Nat) :
    (r < 15 → applyFields r g randG = Option.none) ∧
      (16 ≤ r → ∀ f, applyFields r g randG = Option.some f →
        f = ((r >>> 4) - 1) % 9 ∧ f ≤ 8) := by
  constructor
  · intro h
    simp [applyFields, h]
  · intro h16 f hf
    have hn : ¬ r < 15 := by omega
    have ha : 1 ≤ r >>> 4 := by
      have : r >>> 4 = r / 16 := by simp [Nat.shiftRight_eq_div_pow]
      omega
    rw [applyFields, if_neg hn] at hf
    have h1 : ((r >>> 4 : Nat) : Int) - (1 : Int) = ((r >>> 4 - 1 : Nat) : Int) := by omega
    have h9 : (r >>> 4 - 1) % 9 < 4294967296 := by omega
    have hval : toUint (Int.tmod (((r >>> 4 : Nat) : Int) - 1) 9) = ((r >>> 4) - 1) % 9 := by
      rw [h1, Int.tmod_eq_emod (by positivity) (by norm_num)]
      unfold toUint
      omega
    split at hf
    · have hfe : f = toUint (Int.tmod (((r >>> 4 : Nat) : Int) - 1) 9) :=
        (Option.some_inj.1 hf).symm
      rw [hfe, hval]
      exact ⟨rfl, by omega⟩
    · exact absurd hf (by simp)

/-- Witness for the amended C6 at `r = 240`, `g = 240`, jitter 0. -/
theorem applyFields_field_value_witness :
    ((15 : Nat) < 15 → applyFields 15 240 0 = Option.none) ∧
      ((16 : Nat) ≤ 240 ∧
        (applyFields 240 240 0 = Option.some 5 ∧ (5 : Nat) = ((240 >>> 4) - 1) % 9)) :=
  ⟨fun h => absurd h (by decide),
    ⟨by decide,
      ⟨by decide,
        ((applyFields_field_value 240 240 0).2 (by decide) 5 (by decide)).1⟩⟩⟩

/-- Claim C7: with red at or above the high cutoff on a non-flat slope,
`ApplyWater` makes no canal and no sea, and makes a river exactly when
green is also at or above the high cutoff and the slope is a half-tile
slope; with red below the cutoff and green at or above it, a river is made
whenever the slope is flat or a half-tile slope, on green alone. -/
theorem applyWater_classification (r g b : Nat)
    (flat halftile heightZero ownerWater : Bool) :
    (240 ≤ r → flat = false →
      ((applyWater r g b flat halftile heightZero ownerWater).isCanal = false ∧
        applyWater r g b flat halftile heightZero ownerWater ≠ WaterAction.sea) ∧
      (applyWater r g b flat halftile heightZero ownerWater = WaterAction.river ↔
        (240 ≤ g ∧ halftile = true))) ∧
    (r < 240 → 240 ≤ g → (flat = true ∨ halftile = true) →
      applyWater r g b flat halftile heightZero ownerWater = WaterAction.river) := by
  constructor
  · intro hr hflat
    subst hflat
    simp only [applyWater, if_pos hr, Bool.false_eq_true, if_false]
    by_cases hg : 240 ≤ g <;> cases halftile <;>
      simp [hg, WaterAction.isCanal]
  · intro hr hg hfh
    have hnr : ¬ 240 ≤ r := by omega
    rcases hfh with hfl | hht
    · subst hfl
      simp [applyWater, if_neg hnr, hg]
    · subst hht
      simp [applyWater, if_neg hnr, hg]

/-- Witness for C7: a half-tile-sloped tile with `r = g = 255` gets a
river through the canal-fallback branch, and a flat tile with `r = 0`,
`g = 255` gets a river through the pure-river branch. -/
theorem applyWater_classification_witness :
    applyWater 255 255 0 false true false false = WaterAction.river ∧
      applyWater 0 255 0 true false false false = WaterAction.river :=
  ⟨((applyWater_classification 255 255 0 false true false false).1
      (by decide) rfl).2.mpr ⟨by decide, rfl⟩,
    (applyWater_classification 0 255 0 true false false false).2
      (by decide) (by decide) (Or.inl rfl)⟩

/-- Claim C8: when `ReadRasterFile` fails, `LoadRaster` performs no
projection pass (whatever the pass would do), leaves the world grid
exactly as it was, does not emit the whole-screen-changed notification,
and releases the partially allocated buffer. -/
theorem loadRaster_read_failure (G : Type)
    (pass : RasterDataType → Nat → Nat → List Nat → G → G)
    (rdt : RasterDataType) (grid : G) :
    loadRaster G pass rdt Option.none grid =
      { grid := grid, screenDirty := false, bufferFreed := true } :=
  rfl

/-- Claim C9: every `(max_level, start, end)` triple passed to
`SampleQuantizedGradient` by the classifiers lies in the fixed set
`{(3,240,15), (1,15,240), (6,15,240), (4,15,240), (2,15,240)}`; each such
triple has `|(end-start)/max_level| ≥ 3`, a non-zero `x_delta`, and a
strictly positive `RandomRange` bound `|x_delta - 2|`. -/
theorem classifier_sample_args_valid (p : Int × Int × Int)
    (hp : p ∈ classifierSampleArgs) :
    p ∈ claimedSampleArgSet ∧
      3 ≤ (Int.tdiv (p.2.2 - p.2.1) p.1).natAbs ∧
      Int.tdiv (p.2.2 - p.2.1) p.1 ≠ 0 ∧
      0 < (Int.tdiv (p.2.2 - p.2.1) p.1 - 2).natAbs := by
  fin_cases hp <;> decide

/-- Witness for C9 at the terrain classifier's descending triple. -/
theorem classifier_sample_args_valid_witness :
    ((3 : Int), (240 : Int), (15 : Int)) ∈ classifierSampleArgs ∧
      (((3 : Int), (240 : Int), (15 : Int)) ∈ claimedSampleArgSet ∧
        3 ≤ (Int.tdiv ((15 : Int) - 240) 3).natAbs ∧
        Int.tdiv ((15 : Int) - 240) 3 ≠ 0 ∧
        0 < (Int.tdiv ((15 : Int) - 240) 3 - 2).natAbs) :=
  ⟨by decide, classifier_sample_args_valid (3, 240, 15) (by decide)⟩

/-- Claim C10: on tiles that are neither clear ground nor tree-covered,
`ReplaceGround` is the identity, `ApplyTerrain` is the identity, and
`ApplyDesert` (whose `ReplaceGround` call has no tile-type guard of its
own) leaves the tile type, ground kind, density and tree ground
unchanged. -/
theorem replaceGround_frame (t : Tile) (cg : ClearGround)
    (d r g b randR randG randB : Nat)
    (h1 : t.ttype ≠ TileType.clear) (h2 : t.ttype ≠ TileType.trees) :
    replaceGround t cg d = t ∧
      applyTerrain r g b randR randG randB t = t ∧
      (applyDesert r g randR t).ttype = t.ttype ∧
      (applyDesert r g randR t).ground = t.ground ∧
      (applyDesert r g randR t).density = t.density ∧
      (applyDesert r g randR t).treeGround = t.treeGround := by
  have hrg : ∀ cg2 d2, replaceGround t cg2 d2 = t := by
    intro cg2 d2
    simp [replaceGround, h1, h2]
  have hd : applyDesert r g randR t = t ∨
      applyDesert r g randR t = { t with tropicZone := TropicZone.desert } := by
    simp only [applyDesert]
    split
    · exact Or.inl rfl
    · rw [hrg]
      split
      · exact Or.inr rfl
      · exact Or.inl rfl
  refine ⟨hrg cg d, ?_, ?_⟩
  · rw [applyTerrain, if_pos ⟨h1, h2⟩]
  · rcases hd with h | h <;> rw [h] <;> exact ⟨rfl, rfl, rfl, rfl⟩

/-- Witness for C10 on a water tile. -/
theorem replaceGround_frame_witness :
    (Tile.mk TileType.water ClearGround.grass 0 TreeGround.grass TropicZone.normal).ttype ≠
        TileType.clear ∧
      (Tile.mk TileType.water ClearGround.grass 0 TreeGround.grass TropicZone.normal).ttype ≠
        TileType.trees ∧
      replaceGround
          (Tile.mk TileType.water ClearGround.grass 0 TreeGround.grass TropicZone.normal)
          ClearGround.desert 3 =
        Tile.mk TileType.water ClearGround.grass 0 TreeGround.grass TropicZone.normal ∧
      applyTerrain 255 255 255 0 0 0
          (Tile.mk TileType.water ClearGround.grass 0 TreeGround.grass TropicZone.normal) =
        Tile.mk TileType.water ClearGround.grass 0 TreeGround.grass TropicZone.normal :=
  ⟨by decide, by decide,
    (replaceGround_frame
      (Tile.mk TileType.water ClearGround.grass 0 TreeGround.grass TropicZone.normal)
      ClearGround.desert 3 255 255 255 0 0 0 (by decide) (by decide)).1,
    (replaceGround_frame
      (Tile.mk TileType.water ClearGround.grass 0 TreeGround.grass TropicZone.normal)
      ClearGround.desert 3 255 255 255 0 0 0 (by decide) (by decide)).2.1⟩
